import Mathlib

/-!
Verification of the routing / state-machine core of the-rebbe-and-me
(src/agents/orchestrator/main_orchestrator.py).

Shallow embedding conventions:
- The Python `AgentState` TypedDict becomes a Lean structure.  Every key of
  the TypedDict is always present at runtime (the initial state in
  `run_orchestrator` sets all of them), so Python's `state.get(k, default)`
  is embedded as plain field access; `Optional[...]` fields become `Option`.
- Calls to the external text-completion collaborator (Anthropic) are
  abstracted: a node whose state update depends on the collaborator's
  response takes that response as an explicit `String` parameter.  Nodes
  whose collaborator call is performed but whose parsed result is discarded
  (research_agent_node parses `research_plan` and never uses it) take no
  such parameter.
- `datetime.utcnow().isoformat()` timestamps are passed in as a `now`
  parameter.  In `link_verification_node` Python recomputes `utcnow()` per
  list element; we use one timestamp for the whole call, which does not
  affect any property stated here.
- `completion_node` serializes its result dict with `json.dumps`; we keep
  the structured record (`FinalOutput`) and abstract the serialization.
- LangGraph's `END` sentinel is embedded as the string "__end__".
-/

/-- A citation record produced by the research agent.  The Python code uses a
plain dict; `link_verification_node` tests `"url" in source`, so the url is
an `Option`.  The remaining keys of the hardcoded record are plain strings. -/
structure Source where
  type : String
  citation : String
  topic : String
  url : Option String
  page : String
deriving DecidableEq

/-- An entry of `verified_links`: `{"url": ..., "status": ..., "checked_at": ...}`. -/
structure VerifiedLink where
  url : String
  status : String
  checked_at : String
deriving DecidableEq

/-- The fixed record written by `translation_node`. -/
structure Translations where
  hebrew_to_english : List (String × String)
  english_to_hebrew : List (String × String)
  chassidic_terms : List String
deriving DecidableEq

/-- The structured content of `final_output` as assembled by
`completion_node` (before `json.dumps`). -/
structure FinalOutput where
  task_type : String
  sources : List Source
  content : Option String
  verified_links : List VerifiedLink
  context : Option String
  generated_at : String
deriving DecidableEq

/-- The shared `AgentState` TypedDict.  `citations` and `rebbe_prophecies`
are never written by any node; their element types are modelled loosely.
The Python key `structure` is a Lean keyword and is renamed `structure_`.
`current_events_mapped` holds the JSON object parsed from the context
collaborator's response; it is modelled as an opaque `String` payload. -/
structure AgentState where
  task_id : String
  task_type : String
  user_input : String
  current_agent : String
  sources_found : List Source
  citations : List Source
  hebrew_content : Option String
  english_content : Option String
  structure_ : Option String
  verified_links : List VerifiedLink
  broken_links : List String
  translations : Option Translations
  current_events_mapped : Option String
  rebbe_prophecies : Option (List String)
  messages : List String
  completed_agents : List String
  errors : List String
  final_output : Option FinalOutput
deriving DecidableEq

/-- `orchestrator_node`: determines which agent should run next based on
task type and `completed_agents`.  For a task type with no branch the
Python function falls through and returns the state with `current_agent`
untouched. -/
def orchestrator_node (s : AgentState) : AgentState :=
  let s := { s with
    messages := s.messages ++ ["[ORCHESTRATOR] Starting task: " ++ s.task_type] }
  if s.task_type = "farbrengen" then
    if "research" ∉ s.completed_agents then { s with current_agent := "research" }
    else if "context" ∉ s.completed_agents then { s with current_agent := "context" }
    else if "content" ∉ s.completed_agents then { s with current_agent := "content" }
    else if "links" ∉ s.completed_agents then { s with current_agent := "links" }
    else { s with current_agent := "complete" }
  else if s.task_type = "source_lookup" then
    if "research" ∉ s.completed_agents then { s with current_agent := "research" }
    else if "links" ∉ s.completed_agents then { s with current_agent := "links" }
    else { s with current_agent := "complete" }
  else if s.task_type = "dvar_torah" then
    if "research" ∉ s.completed_agents then { s with current_agent := "research" }
    else if "content" ∉ s.completed_agents then { s with current_agent := "content" }
    else if "translation" ∉ s.completed_agents then { s with current_agent := "translation" }
    else { s with current_agent := "complete" }
  else
    s

/-- The single hardcoded citation record that `research_agent_node` stores
in `sources_found`. -/
def hardcodedSource : Source :=
  { type := "sicha"
    citation := "Sichos Kodesh 5747, Behar-Bechukosai"
    topic := "Shleimus HaAretz"
    url := some "https://www.chabad.org/therebbe/article_cdo/aid/4463154"
    page := "478-482" }

/-- `research_agent_node`: the collaborator call's parsed `research_plan` is
discarded by the Python code, so the node takes no response parameter; the
stored source list is hardcoded. -/
def research_agent_node (s : AgentState) : AgentState :=
  let s := { s with
    messages := s.messages ++ ["[RESEARCH AGENT] Starting source search..."] }
  let s := { s with sources_found := [hardcodedSource] }
  let s := { s with
    messages := s.messages ++
      ["[RESEARCH AGENT] Found " ++ toString s.sources_found.length ++ " sources"] }
  { s with completed_agents := s.completed_agents ++ ["research"] }

/-- `content_generation_node`: builds a prompt from sources/context and
stores the collaborator's response text (parameter `llmText`) in
`english_content`. -/
def content_generation_node (llmText : String) (s : AgentState) : AgentState :=
  let s := { s with
    messages := s.messages ++ ["[CONTENT AGENT] Generating content..."] }
  let s := { s with english_content := some llmText }
  let s := { s with
    messages := s.messages ++ ["[CONTENT AGENT] Content generated successfully"] }
  { s with completed_agents := s.completed_agents ++ ["content"] }

/-- `link_verification_node`: collects the urls of url-bearing sources, marks
every one ACTIVE, and always clears `broken_links`. -/
def link_verification_node (now : String) (s : AgentState) : AgentState :=
  let s := { s with
    messages := s.messages ++ ["[LINK VERIFICATION AGENT] Checking URLs..."] }
  let urls_to_check := s.sources_found.filterMap (fun src => src.url)
  let s := { s with
    verified_links := urls_to_check.map
      (fun u => { url := u, status := "ACTIVE", checked_at := now }) }
  let s := { s with broken_links := [] }
  let s := { s with
    messages := s.messages ++
      ["[LINK VERIFICATION] Verified " ++ toString urls_to_check.length ++ " links"] }
  { s with completed_agents := s.completed_agents ++ ["links"] }

/-- `context_enrichment_node`: stores the parsed collaborator response
(parameter `ctxData`, opaque payload) in `current_events_mapped`. -/
def context_enrichment_node (ctxData : String) (s : AgentState) : AgentState :=
  let s := { s with
    messages := s.messages ++ ["[CONTEXT AGENT] Mapping current events..."] }
  let s := { s with current_events_mapped := some ctxData }
  let s := { s with
    messages := s.messages ++ ["[CONTEXT AGENT] Events mapped successfully"] }
  { s with completed_agents := s.completed_agents ++ ["context"] }

/-- `translation_node`: stores a fixed record; no collaborator call. -/
def translation_node (s : AgentState) : AgentState :=
  let s := { s with
    messages := s.messages ++ ["[TRANSLATION AGENT] Processing translations..."] }
  let s := { s with
    translations := some
      { hebrew_to_english := []
        english_to_hebrew := []
        chassidic_terms := ["shleimus", "farbrengen", "sicha", "igros kodesh"] } }
  let s := { s with completed_agents := s.completed_agents ++ ["translation"] }
  { s with messages := s.messages ++ ["[TRANSLATION AGENT] Translations complete"] }

/-- `completion_node`: assembles `final_output` from whatever fields the
state holds and sets `current_agent` to "done".  Python's
`state.get(k, default)` defaults never fire because every key is present. -/
def completion_node (now : String) (s : AgentState) : AgentState :=
  let s := { s with
    messages := s.messages ++ ["[COMPLETION] Assembling final output..."] }
  let s := { s with
    final_output := some
      { task_type := s.task_type
        sources := s.sources_found
        content := s.english_content
        verified_links := s.verified_links
        context := s.current_events_mapped
        generated_at := now } }
  { s with current_agent := "done" }

/-- `should_continue`: routes on `current_agent`; "done" goes to END
(embedded "__end__"), "complete" goes to the completion node, anything else
is passed through as the target node name. -/
def should_continue (s : AgentState) : String :=
  if s.current_agent = "done" then "__end__"
  else if s.current_agent = "complete" then "completion"
  else s.current_agent

/-- The initial state built in `run_orchestrator` (`task_id` is the task
type joined with a wall-clock timestamp, passed in as `ts`). -/
def initialState (task_type ts user_input : String) : AgentState :=
  { task_id := task_type ++ "_" ++ ts
    task_type := task_type
    user_input := user_input
    current_agent := "orchestrator"
    sources_found := []
    citations := []
    hebrew_content := none
    english_content := none
    structure_ := none
    verified_links := []
    broken_links := []
    translations := none
    current_events_mapped := none
    rebbe_prophecies := none
    messages := []
    completed_agents := []
    errors := []
    final_output := none }

/-- Dispatch table of `create_workflow`'s conditional edges out of the
orchestrator: the five step-executor targets.  A name with no matching node
leaves the state unchanged (the graph has no such edge). -/
def runStepNode (llmText ctxData now : String) (name : String)
    (s : AgentState) : AgentState :=
  if name = "research" then research_agent_node s
  else if name = "content" then content_generation_node llmText s
  else if name = "links" then link_verification_node now s
  else if name = "context" then context_enrichment_node ctxData s
  else if name = "translation" then translation_node s
  else s

/-- The driver loop of the compiled workflow, recording the router's
selection at each orchestrator invocation: orchestrator, then
`should_continue`, then the selected step executor, and back — ending with
the terminal marker "complete" once `should_continue` routes to the
completion node.  `fuel` bounds the number of orchestrator invocations. -/
def driverSelections (llmText ctxData now : String) :
    Nat → AgentState → List String
  | 0, _ => []
  | n + 1, s =>
    let s1 := orchestrator_node s
    if should_continue s1 = "completion" then ["complete"]
    else s1.current_agent ::
      driverSelections llmText ctxData now n
        (runStepNode llmText ctxData now (should_continue s1) s1)

/-- Modelled from the spec: the declared checklist (required-steps sequence)
of each task type, in the order the router's branches test them.  The source
encodes these orders as if/elif chains rather than a mapping; this
definition follows the spec's `requiredSteps` wording so the router can be
compared against first-not-completed selection over it. -/
def specChecklist : String → List String
  | "farbrengen" => ["research", "context", "content", "links"]
  | "source_lookup" => ["research", "links"]
  | "dvar_torah" => ["research", "content", "translation"]
  | _ => []

/-- Modelled from the spec: `nextStep` — scan a checklist in declared order
and return the first entry not contained in the completed list, or the
terminal marker "complete" when all are present. -/
def firstIncomplete : List String → List String → String
  | [], _ => "complete"
  | x :: xs, done => if x ∈ done then firstIncomplete xs done else x

/-- One transition of the compiled workflow: the orchestrator may run on any
state (it is the entry point and every executor returns to it), and each
other node runs exactly when `should_continue` routes to it.  Collaborator
responses and timestamps are arbitrary. -/
inductive DriverStep : AgentState → AgentState → Prop where
  | orch (s : AgentState) : DriverStep s (orchestrator_node s)
  | research (s : AgentState) (h : should_continue s = "research") :
      DriverStep s (research_agent_node s)
  | content (s : AgentState) (txt : String) (h : should_continue s = "content") :
      DriverStep s (content_generation_node txt s)
  | links (s : AgentState) (now : String) (h : should_continue s = "links") :
      DriverStep s (link_verification_node now s)
  | context (s : AgentState) (ctx : String) (h : should_continue s = "context") :
      DriverStep s (context_enrichment_node ctx s)
  | translation (s : AgentState) (h : should_continue s = "translation") :
      DriverStep s (translation_node s)
  | completion (s : AgentState) (now : String) (h : should_continue s = "completion") :
      DriverStep s (completion_node now s)

/-- A state reachable from some initial state by workflow transitions. -/
def Reachable (s : AgentState) : Prop :=
  ∃ ty ts ui, Relation.ReflTransGen DriverStep (initialState ty ts ui) s

/-- The step-completion/output correspondence of the spec's data-model
invariant, stated over the five step executors' owned output fields. -/
def stepOutputInv (s : AgentState) : Prop :=
  ("research" ∈ s.completed_agents ↔ s.sources_found ≠ []) ∧
  ("content" ∈ s.completed_agents ↔ s.english_content.isSome) ∧
  ("links" ∈ s.completed_agents ↔ s.verified_links ≠ []) ∧
  ("context" ∈ s.completed_agents ↔ s.current_events_mapped.isSome) ∧
  ("translation" ∈ s.completed_agents ↔ s.translations.isSome)

/-- Auxiliary facts needed to make `stepOutputInv` inductive: the source
list is empty or the hardcoded singleton, and the link executor is only ever
scheduled after research has completed. -/
def auxInv (s : AgentState) : Prop :=
  (s.sources_found = [] ∨ s.sources_found = [hardcodedSource]) ∧
  (s.current_agent = "links" → "research" ∈ s.completed_agents)

/-- The orchestrator only touches `messages` and `current_agent`: every
other field of the state is returned unchanged. -/
theorem orchestrator_node_fields (s : AgentState) :
    (orchestrator_node s).task_id = s.task_id ∧
    (orchestrator_node s).task_type = s.task_type ∧
    (orchestrator_node s).user_input = s.user_input ∧
    (orchestrator_node s).completed_agents = s.completed_agents ∧
    (orchestrator_node s).sources_found = s.sources_found ∧
    (orchestrator_node s).english_content = s.english_content ∧
    (orchestrator_node s).verified_links = s.verified_links ∧
    (orchestrator_node s).current_events_mapped = s.current_events_mapped ∧
    (orchestrator_node s).translations = s.translations := by
  simp only [orchestrator_node]
  split_ifs <;> simp_all

/-- On the three known task types the orchestrator's selection is exactly
first-not-completed over the declared checklist. -/
theorem orchestrator_node_selects_firstIncomplete (s : AgentState)
    (h : s.task_type = "farbrengen" ∨ s.task_type = "source_lookup" ∨
      s.task_type = "dvar_torah") :
    (orchestrator_node s).current_agent =
      firstIncomplete (specChecklist s.task_type) s.completed_agents := by
  simp only [orchestrator_node]
  rcases h with h | h | h <;>
    simp_all [specChecklist, firstIncomplete] <;>
    split_ifs <;> simp_all

/-- On an unknown task type the orchestrator leaves `current_agent`
unchanged. -/
theorem orchestrator_node_unknown_current_agent (s : AgentState)
    (h1 : s.task_type ≠ "farbrengen") (h2 : s.task_type ≠ "source_lookup")
    (h3 : s.task_type ≠ "dvar_torah") :
    (orchestrator_node s).current_agent = s.current_agent := by
  simp only [orchestrator_node]
  split_ifs <;> simp_all

/-- Claim C1: for each of the three declared task types, alternately
applying the router and the step executor it selects, starting from a state
with empty `completed_agents`, visits every step of that task type's
checklist exactly once, in declared order, before the router selects the
terminal marker "complete". -/
theorem router_visits_each_checklist_in_order (txt ctx now ts ui : String) :
    driverSelections txt ctx now 10 (initialState "farbrengen" ts ui) =
      specChecklist "farbrengen" ++ ["complete"] ∧
    driverSelections txt ctx now 10 (initialState "source_lookup" ts ui) =
      specChecklist "source_lookup" ++ ["complete"] ∧
    driverSelections txt ctx now 10 (initialState "dvar_torah" ts ui) =
      specChecklist "dvar_torah" ++ ["complete"] ∧
    specChecklist "farbrengen" = ["research", "context", "content", "links"] ∧
    specChecklist "source_lookup" = ["research", "links"] ∧
    specChecklist "dvar_torah" = ["research", "content", "translation"] := by
  refine ⟨?_, ?_, ?_, rfl, rfl, rfl⟩ <;>
    simp [driverSelections, orchestrator_node, should_continue, runStepNode,
      research_agent_node, content_generation_node, translation_node,
      link_verification_node, context_enrichment_node, initialState, specChecklist]

/-- Claim C4: for each task type with a checklist of length N, the driver
loop terminates, with the router invoked at most N + 1 times: whatever extra
fuel is supplied beyond N + 1 orchestrator invocations, the recorded
selection trace is the full checklist followed by "complete", a trace of
exactly N + 1 router invocations. -/
theorem driver_loop_terminates_within_checklist_length
    (txt ctx now ts ui : String) (extra : Nat) :
    (driverSelections txt ctx now (extra + ((specChecklist "farbrengen").length + 1))
        (initialState "farbrengen" ts ui) = specChecklist "farbrengen" ++ ["complete"] ∧
      (specChecklist "farbrengen" ++ ["complete"]).length =
        (specChecklist "farbrengen").length + 1) ∧
    (driverSelections txt ctx now (extra + ((specChecklist "source_lookup").length + 1))
        (initialState "source_lookup" ts ui) = specChecklist "source_lookup" ++ ["complete"] ∧
      (specChecklist "source_lookup" ++ ["complete"]).length =
        (specChecklist "source_lookup").length + 1) ∧
    (driverSelections txt ctx now (extra + ((specChecklist "dvar_torah").length + 1))
        (initialState "dvar_torah" ts ui) = specChecklist "dvar_torah" ++ ["complete"] ∧
      (specChecklist "dvar_torah" ++ ["complete"]).length =
        (specChecklist "dvar_torah").length + 1) := by
  refine ⟨⟨?_, rfl⟩, ⟨?_, rfl⟩, ⟨?_, rfl⟩⟩ <;>
    simp [driverSelections, orchestrator_node, should_continue, runStepNode,
      research_agent_node, content_generation_node, translation_node,
      link_verification_node, context_enrichment_node, initialState, specChecklist]

/-- Claim C6: `completed_agents` is append-only across every node
invocation: the orchestrator and the completion assembler return it
unchanged, and each step executor returns it with exactly its own name
appended at the end — existing elements and their order are never touched,
so the list's length is non-decreasing and it never shrinks or reorders. -/
theorem completed_agents_append_only :
    (∀ s : AgentState,
      (orchestrator_node s).completed_agents = s.completed_agents) ∧
    (∀ s : AgentState,
      (research_agent_node s).completed_agents = s.completed_agents ++ ["research"]) ∧
    (∀ (txt : String) (s : AgentState),
      (content_generation_node txt s).completed_agents = s.completed_agents ++ ["content"]) ∧
    (∀ (now : String) (s : AgentState),
      (link_verification_node now s).completed_agents = s.completed_agents ++ ["links"]) ∧
    (∀ (ctx : String) (s : AgentState),
      (context_enrichment_node ctx s).completed_agents = s.completed_agents ++ ["context"]) ∧
    (∀ s : AgentState,
      (translation_node s).completed_agents = s.completed_agents ++ ["translation"]) ∧
    (∀ (now : String) (s : AgentState),
      (completion_node now s).completed_agents = s.completed_agents) :=
  ⟨fun s => (orchestrator_node_fields s).2.2.2.1,
   fun _ => rfl, fun _ _ => rfl, fun _ _ => rfl, fun _ _ => rfl,
   fun _ => rfl, fun _ _ => rfl⟩

/-- Claim C7: every node of the workflow — the router, the five step
executors and the completion assembler — leaves `task_id`, `task_type` and
`user_input` unchanged. -/
theorem nodes_preserve_task_identity :
    (∀ s : AgentState, (orchestrator_node s).task_id = s.task_id ∧
      (orchestrator_node s).task_type = s.task_type ∧
      (orchestrator_node s).user_input = s.user_input) ∧
    (∀ s : AgentState, (research_agent_node s).task_id = s.task_id ∧
      (research_agent_node s).task_type = s.task_type ∧
      (research_agent_node s).user_input = s.user_input) ∧
    (∀ (txt : String) (s : AgentState), (content_generation_node txt s).task_id = s.task_id ∧
      (content_generation_node txt s).task_type = s.task_type ∧
      (content_generation_node txt s).user_input = s.user_input) ∧
    (∀ (now : String) (s : AgentState), (link_verification_node now s).task_id = s.task_id ∧
      (link_verification_node now s).task_type = s.task_type ∧
      (link_verification_node now s).user_input = s.user_input) ∧
    (∀ (ctx : String) (s : AgentState), (context_enrichment_node ctx s).task_id = s.task_id ∧
      (context_enrichment_node ctx s).task_type = s.task_type ∧
      (context_enrichment_node ctx s).user_input = s.user_input) ∧
    (∀ s : AgentState, (translation_node s).task_id = s.task_id ∧
      (translation_node s).task_type = s.task_type ∧
      (translation_node s).user_input = s.user_input) ∧
    (∀ (now : String) (s : AgentState), (completion_node now s).task_id = s.task_id ∧
      (completion_node now s).task_type = s.task_type ∧
      (completion_node now s).user_input = s.user_input) :=
  ⟨fun s => ⟨(orchestrator_node_fields s).1, (orchestrator_node_fields s).2.1,
    (orchestrator_node_fields s).2.2.1⟩,
   fun _ => ⟨rfl, rfl, rfl⟩, fun _ _ => ⟨rfl, rfl, rfl⟩, fun _ _ => ⟨rfl, rfl, rfl⟩,
   fun _ _ => ⟨rfl, rfl, rfl⟩, fun _ => ⟨rfl, rfl, rfl⟩, fun _ _ => ⟨rfl, rfl, rfl⟩⟩

/-- Claim C10: on any state, `link_verification_node` reports no broken
links, produces exactly one verified entry per url-bearing source in the
same order (its url being that source's url), and marks every entry ACTIVE. -/
theorem link_verifier_marks_everything_active (now : String) (s : AgentState) :
    (link_verification_node now s).broken_links = [] ∧
    (link_verification_node now s).verified_links.map VerifiedLink.url =
      s.sources_found.filterMap Source.url ∧
    (link_verification_node now s).verified_links.map VerifiedLink.status =
      List.replicate (s.sources_found.filterMap Source.url).length "ACTIVE" ∧
    (link_verification_node now s).verified_links.length =
      (s.sources_found.filterMap Source.url).length := by
  refine ⟨rfl, ?_, ?_, ?_⟩ <;>
    simp [link_verification_node, List.map_map, Function.comp_def,
      List.map_const']

/-- `should_continue` only returns an executor name when `current_agent`
already holds that name. -/
theorem should_continue_eq_executor (s : AgentState) (name : String)
    (h : should_continue s = name) (h2 : name ≠ "__end__")
    (h3 : name ≠ "completion") : s.current_agent = name := by
  unfold should_continue at h
  split_ifs at h <;> simp_all

/-- The orchestrator only schedules the link executor once research has
completed (given that the same held of the incoming `current_agent`). -/
theorem orchestrator_node_links_requires_research (s : AgentState)
    (hlink : s.current_agent = "links" → "research" ∈ s.completed_agents)
    (h : (orchestrator_node s).current_agent = "links") :
    "research" ∈ (orchestrator_node s).completed_agents := by
  rw [(orchestrator_node_fields s).2.2.2.1]
  revert h
  simp only [orchestrator_node]
  split_ifs <;> simp_all

/-- One workflow transition preserves the completion/output invariant
together with its auxiliary strengthening. -/
theorem invariant_step (a b : AgentState) (hs : DriverStep a b)
    (h : stepOutputInv a ∧ auxInv a) : stepOutputInv b ∧ auxInv b := by
  obtain ⟨⟨hr, hc, hl, hx, ht⟩, hsrc, hlink⟩ := h
  cases hs with
  | orch =>
    obtain ⟨-, -, -, h4, h5, h6, h7, h8, h9⟩ := orchestrator_node_fields a
    refine ⟨⟨?_, ?_, ?_, ?_, ?_⟩, ?_, ?_⟩
    · rw [h4, h5]; exact hr
    · rw [h4, h6]; exact hc
    · rw [h4, h7]; exact hl
    · rw [h4, h8]; exact hx
    · rw [h4, h9]; exact ht
    · rw [h5]; exact hsrc
    · exact fun hca => orchestrator_node_links_requires_research a hlink hca
  | research hsc =>
    have hcur := should_continue_eq_executor a "research" hsc (by decide) (by decide)
    refine ⟨⟨?_, ?_, ?_, ?_, ?_⟩, ?_, ?_⟩ <;>
      simp_all [research_agent_node, hardcodedSource]
  | content txt hsc =>
    have hcur := should_continue_eq_executor a "content" hsc (by decide) (by decide)
    refine ⟨⟨?_, ?_, ?_, ?_, ?_⟩, ?_, ?_⟩ <;>
      simp_all [content_generation_node]
  | links now hsc =>
    have hcur := should_continue_eq_executor a "links" hsc (by decide) (by decide)
    have hres : "research" ∈ a.completed_agents := hlink hcur
    have hne : a.sources_found ≠ [] := hr.mp hres
    have heq : a.sources_found = [hardcodedSource] := by
      rcases hsrc with h | h <;> simp_all
    refine ⟨⟨?_, ?_, ?_, ?_, ?_⟩, ?_, ?_⟩ <;>
      simp_all [link_verification_node, hardcodedSource]
  | context ctx hsc =>
    have hcur := should_continue_eq_executor a "context" hsc (by decide) (by decide)
    refine ⟨⟨?_, ?_, ?_, ?_, ?_⟩, ?_, ?_⟩ <;>
      simp_all [context_enrichment_node]
  | translation hsc =>
    have hcur := should_continue_eq_executor a "translation" hsc (by decide) (by decide)
    refine ⟨⟨?_, ?_, ?_, ?_, ?_⟩, ?_, ?_⟩ <;>
      simp_all [translation_node]
  | completion now hsc =>
    refine ⟨⟨?_, ?_, ?_, ?_, ?_⟩, ?_, ?_⟩ <;>
      simp_all [completion_node]

/-- The invariant holds of every initial state. -/
theorem invariant_init (ty ts ui : String) :
    stepOutputInv (initialState ty ts ui) ∧ auxInv (initialState ty ts ui) := by
  constructor <;> simp [stepOutputInv, auxInv, initialState]

/-- The invariant holds of every reachable state. -/
theorem invariant_of_reachable (s : AgentState) (h : Reachable s) :
    stepOutputInv s ∧ auxInv s := by
  obtain ⟨ty, ts, ui, hr⟩ := h
  induction hr with
  | refl => exact invariant_init ty ts ui
  | tail hab hbc ih => exact invariant_step _ _ hbc ih

/-- Claim C5: in every state reachable from an initial state by router and
step-executor applications, a step name is a member of `completed_agents`
exactly when the output field owned by that step has been populated:
research ↔ `sources_found` non-empty, content ↔ `english_content` set,
links ↔ `verified_links` non-empty, context ↔ `current_events_mapped` set,
translation ↔ `translations` set. -/
theorem reachable_states_satisfy_output_invariant (s : AgentState)
    (h : Reachable s) : stepOutputInv s :=
  (invariant_of_reachable s h).1

/-- A concrete reachable state with exactly the research step completed:
the orchestrator routes the citation-only initial state to research, and the
research executor runs. -/
def researchOnlyState : AgentState :=
  research_agent_node (orchestrator_node (initialState "source_lookup" "T0" "query"))

/-- Witness: the invariant theorem applied at a concrete reachable state. -/
theorem reachable_states_satisfy_output_invariant_witness :
    stepOutputInv researchOnlyState :=
  reachable_states_satisfy_output_invariant researchOnlyState
    ⟨"source_lookup", "T0", "query",
      Relation.ReflTransGen.tail
        (Relation.ReflTransGen.tail Relation.ReflTransGen.refl
          (DriverStep.orch (initialState "source_lookup" "T0" "query")))
        (DriverStep.research (orchestrator_node (initialState "source_lookup" "T0" "query")) rfl)⟩

/-- Claim C8 (amended): on every reachable state whose `completed_agents` is
exactly ["research"], the completion assembler returns a `final_output`
with the populated hardcoded sources, `verified_links` empty, `content` and
`context` equal to the unset marker `none` (Python `None`, serialized as
null — not the empty string or empty mapping), stamped with the supplied
generation timestamp; it performs no validation that all expected steps
ran and raises no error (it is a total function). -/
theorem completion_assembles_partial_result (now : String) (s : AgentState)
    (h : Reachable s) (hca : s.completed_agents = ["research"]) :
    (completion_node now s).final_output = some
      { task_type := s.task_type
        sources := [hardcodedSource]
        content := none
        verified_links := []
        context := none
        generated_at := now } := by
  obtain ⟨⟨hr, hc, hl, hx, -⟩, hsrc, -⟩ := invariant_of_reachable s h
  rw [hca] at hr hc hl hx
  have h1 : s.sources_found ≠ [] := hr.mp (by simp)
  have h2 : s.sources_found = [hardcodedSource] := by
    rcases hsrc with h' | h' <;> simp_all
  have h3 : s.english_content = none := by
    rcases he : s.english_content with _ | v
    · rfl
    · exact absurd (hc.mpr (by simp [he])) (by simp)
  have h4 : s.verified_links = [] := by
    by_contra hne
    exact absurd (hl.mpr hne) (by simp)
  have h5 : s.current_events_mapped = none := by
    rcases he : s.current_events_mapped with _ | v
    · rfl
    · exact absurd (hx.mpr (by simp [he])) (by simp)
  simp [completion_node, h2, h3, h4, h5]

/-- Witness: the amended completion theorem applied at the concrete
reachable research-only state. -/
theorem completion_assembles_partial_result_witness :
    (completion_node "T1" researchOnlyState).final_output = some
      { task_type := "source_lookup"
        sources := [hardcodedSource]
        content := none
        verified_links := []
        context := none
        generated_at := "T1" } :=
  completion_assembles_partial_result "T1" researchOnlyState
    ⟨"source_lookup", "T0", "query",
      Relation.ReflTransGen.tail
        (Relation.ReflTransGen.tail Relation.ReflTransGen.refl
          (DriverStep.orch (initialState "source_lookup" "T0" "query")))
        (DriverStep.research (orchestrator_node (initialState "source_lookup" "T0" "query")) rfl)⟩
    rfl

/-- Counterexample to claim C8 as stated: on the reachable state with only
research completed, the assembled `content` is the unset marker `none`, not
the empty string, and the assembled `context` is `none`, not an empty
mapping. -/
theorem completion_partial_content_is_none :
    researchOnlyState.completed_agents = ["research"] ∧
    ((completion_node "T1" researchOnlyState).final_output.map FinalOutput.content
      = some none) ∧
    ((completion_node "T1" researchOnlyState).final_output.map FinalOutput.context
      = some none) ∧
    (some (none : Option String) ≠ some (some "")) := by
  refine ⟨rfl, rfl, rfl, by simp⟩

/-- `firstIncomplete` never returns a name that is already in the completed
list (the terminal marker aside). -/
theorem firstIncomplete_not_in_done (cl done : List String) (x : String)
    (hx : x ∈ done) (hc : x ≠ "complete") : firstIncomplete cl done ≠ x := by
  induction cl with
  | nil => simp only [firstIncomplete]; exact fun h => hc h.symm
  | cons y ys ih =>
    simp only [firstIncomplete]
    split_ifs with hy
    · exact ih
    · intro he
      exact hy (he ▸ hx)

/-- Claim C3: on every state with a known task type the router sets
`current_agent` to the first entry of that task type's checklist that is
not a member of `completed_agents` ("complete" when all are members) —
selection is by set membership, so a step name already in
`completed_agents` (even erroneously pre-set) is never selected. -/
theorem router_selects_first_incomplete_step (s : AgentState)
    (h : s.task_type = "farbrengen" ∨ s.task_type = "source_lookup" ∨
      s.task_type = "dvar_torah") :
    (orchestrator_node s).current_agent =
      firstIncomplete (specChecklist s.task_type) s.completed_agents ∧
    ("content" ∈ s.completed_agents →
      (orchestrator_node s).current_agent ≠ "content") := by
  refine ⟨orchestrator_node_selects_firstIncomplete s h, fun hmem => ?_⟩
  rw [orchestrator_node_selects_firstIncomplete s h]
  exact firstIncomplete_not_in_done _ _ _ hmem (by decide)

/-- Witness: on a farbrengen state with research and (erroneously pre-set)
content completed, the router selects "context" and does not select
"content". -/
theorem router_selects_first_incomplete_step_witness :
    (orchestrator_node { initialState "farbrengen" "t" "u" with
        completed_agents := ["research", "content"] }).current_agent = "context" ∧
    (orchestrator_node { initialState "farbrengen" "t" "u" with
        completed_agents := ["research", "content"] }).current_agent ≠ "content" := by
  have h := router_selects_first_incomplete_step
    { initialState "farbrengen" "t" "u" with
        completed_agents := ["research", "content"] } (Or.inl rfl)
  exact ⟨h.1.trans (by simp [specChecklist, firstIncomplete, initialState]),
    h.2 (by simp [initialState])⟩

/-- Claim C9 (amended): applying the router twice to the same state yields
the same `current_agent` both times; for the known task types the selection
is a function of `task_type` and `completed_agents` alone, while for an
unknown task type the router echoes the incoming `current_agent`, so the
output is not a function of those two fields alone in general. -/
theorem router_selection_idempotent :
    (∀ s : AgentState,
      (orchestrator_node (orchestrator_node s)).current_agent =
        (orchestrator_node s).current_agent) ∧
    (∀ s t : AgentState, s.task_type = t.task_type →
      s.completed_agents = t.completed_agents →
      (s.task_type = "farbrengen" ∨ s.task_type = "source_lookup" ∨
        s.task_type = "dvar_torah") →
      (orchestrator_node s).current_agent = (orchestrator_node t).current_agent) := by
  constructor
  · intro s
    by_cases h : s.task_type = "farbrengen" ∨ s.task_type = "source_lookup" ∨
      s.task_type = "dvar_torah"
    · have h2 : (orchestrator_node s).task_type = s.task_type :=
        (orchestrator_node_fields s).2.1
      have h3 : (orchestrator_node s).completed_agents = s.completed_agents :=
        (orchestrator_node_fields s).2.2.2.1
      rw [orchestrator_node_selects_firstIncomplete (orchestrator_node s)
          (by rw [h2]; exact h),
        orchestrator_node_selects_firstIncomplete s h, h2, h3]
    · push_neg at h
      exact orchestrator_node_unknown_current_agent (orchestrator_node s)
        (by rw [(orchestrator_node_fields s).2.1]; exact h.1)
        (by rw [(orchestrator_node_fields s).2.1]; exact h.2.1)
        (by rw [(orchestrator_node_fields s).2.1]; exact h.2.2)
  · intro s t hty hca hknown
    rw [orchestrator_node_selects_firstIncomplete s hknown,
      orchestrator_node_selects_firstIncomplete t (by rw [← hty]; exact hknown),
      hty, hca]

/-- Witness: idempotence at a concrete state, and the determinism conjunct
at two concrete states agreeing on `task_type` and `completed_agents`. -/
theorem router_selection_idempotent_witness :
    (orchestrator_node (orchestrator_node (initialState "farbrengen" "t" "u"))).current_agent =
      (orchestrator_node (initialState "farbrengen" "t" "u")).current_agent ∧
    (orchestrator_node (initialState "farbrengen" "t" "u")).current_agent =
      (orchestrator_node { initialState "farbrengen" "x" "y" with
        current_agent := "links" }).current_agent :=
  ⟨router_selection_idempotent.1 (initialState "farbrengen" "t" "u"),
   router_selection_idempotent.2 (initialState "farbrengen" "t" "u")
     { initialState "farbrengen" "x" "y" with current_agent := "links" }
     rfl rfl (Or.inl rfl)⟩

/-- Counterexample to claim C9 as stated: for the unknown task type "shiur"
two states agreeing on `task_type` and `completed_agents` but differing in
`current_agent` get different router outputs, so the selected value is not
a function of `task_type` and `completed_agents` alone. -/
theorem router_selection_depends_on_current_agent :
    (initialState "shiur" "t" "u").task_type =
      ({ initialState "shiur" "t" "u" with current_agent := "links" }).task_type ∧
    (initialState "shiur" "t" "u").completed_agents =
      ({ initialState "shiur" "t" "u" with current_agent := "links" }).completed_agents ∧
    (orchestrator_node (initialState "shiur" "t" "u")).current_agent = "orchestrator" ∧
    (orchestrator_node { initialState "shiur" "t" "u" with
      current_agent := "links" }).current_agent = "links" ∧
    ("orchestrator" : String) ≠ "links" := by
  exact ⟨rfl, rfl, rfl, rfl, by simp⟩

/-- Claim C2 (amended): on a state whose task type is none of the three
known ones the router leaves `current_agent` unchanged (it does not yield
the terminal marker), and `should_continue` after the router equals
`should_continue` before it; in particular from the initial state (whose
`current_agent` is "orchestrator") the routing decision is "orchestrator",
which is neither the completion route nor END nor any step executor, so the
run does not reach TERMINAL — it stops on an unroutable value. -/
theorem router_unknown_type_keeps_current_agent (s : AgentState)
    (h1 : s.task_type ≠ "farbrengen") (h2 : s.task_type ≠ "source_lookup")
    (h3 : s.task_type ≠ "dvar_torah") :
    (orchestrator_node s).current_agent = s.current_agent ∧
    should_continue (orchestrator_node s) = should_continue s := by
  have h := orchestrator_node_unknown_current_agent s h1 h2 h3
  exact ⟨h, by simp [should_continue, h]⟩

/-- Witness: the unknown-task-type theorem applied at the "shiur" initial
state. -/
theorem router_unknown_type_keeps_current_agent_witness :
    (orchestrator_node (initialState "shiur" "t" "u")).current_agent =
      (initialState "shiur" "t" "u").current_agent ∧
    should_continue (orchestrator_node (initialState "shiur" "t" "u")) =
      should_continue (initialState "shiur" "t" "u") :=
  router_unknown_type_keeps_current_agent (initialState "shiur" "t" "u")
    (by decide) (by decide) (by decide)

/-- Counterexample to claim C2 as stated: on the "shiur" initial state the
router does not yield the terminal marker "complete"; the routing decision
is "orchestrator", which is neither the completion route, nor END, nor any
of the five step-executor targets of the workflow's conditional edges. -/
theorem unknown_type_does_not_reach_terminal :
    (orchestrator_node (initialState "shiur" "t" "u")).current_agent = "orchestrator" ∧
    (orchestrator_node (initialState "shiur" "t" "u")).current_agent ≠ "complete" ∧
    should_continue (orchestrator_node (initialState "shiur" "t" "u")) = "orchestrator" ∧
    should_continue (orchestrator_node (initialState "shiur" "t" "u")) ≠ "completion" ∧
    should_continue (orchestrator_node (initialState "shiur" "t" "u")) ≠ "__end__" ∧
    ("orchestrator" ∉
      ["research", "content", "links", "context", "translation"]) := by
  refine ⟨rfl, by decide, rfl, by decide, by decide, by decide⟩
